import Mathlib

/-!
Shallow embedding of the API gateway of the wsoule/infrastructure
repository (the second gateway version embedded in todo.md, lines 353-530:
main, corsMiddleware, healthCheck, routeRequest), together with the route
tables of the two backend services.

Strings are modelled as lists of characters (Go strings are byte slices;
all string data handled by the gateway in the claims is ASCII, where the
two views agree character for character).
-/

namespace Infra

abbrev Str : Type := List Char

def str (s : String) : Str := s.toList

/-- Go strings.Split(s, sep) for a one-character separator sep.
Go semantics: Split("", "/") = [""], Split("/", "/") = ["", ""],
Split("a/b", "/") = ["a", "b"]; every occurrence of the separator splits,
empty fields are kept. -/
def splitSep (c : Char) : Str → List Str
  | [] => [[]]
  | x :: xs =>
    match splitSep c xs with
    | [] => [[]]
    | y :: ys => if x = c then [] :: y :: ys else (x :: y) :: ys

/-- Go strings.TrimPrefix(s, pre): drops pre when it is a prefix,
returns s unchanged otherwise. -/
def trimPrefix (s pre : Str) : Str :=
  if pre.isPrefixOf s then s.drop pre.length else s

/-- Go strings.HasPrefix. -/
def hasPref (s pre : Str) : Bool := pre.isPrefixOf s

structure Request where
  method : Str
  path : Str
  headers : List (Str × Str)
  body : Str
deriving DecidableEq

structure Response where
  status : Nat
  headers : List (Str × Str)
  body : Str
deriving DecidableEq

/-- Go http.Error(w, msg, code): sets the plain-text content type,
writes the status code and the message followed by a newline. -/
def httpError (code : Nat) (msg : Str) : Response :=
  { status := code
    headers := [(str "Content-Type", str "text/plain; charset=utf-8"),
                (str "X-Content-Type-Options", str "nosniff")]
    body := msg ++ ['\n'] }

/-- The gateway state (todo.md line 353): a map from logical service
name to backend base URL, modelled as an association list. -/
structure Gateway where
  serviceMap : List (Str × Str)
deriving DecidableEq

/-- The registry built once at startup in main (todo.md lines 357-373)
from the two environment variables. Go os.Getenv returns the empty
string when a variable is unset, so an unset variable yields an
empty-string URL, never a missing key. -/
def mkGateway (userServiceURL productServiceURL : Str) : Gateway :=
  { serviceMap := [(str "users", userServiceURL),
                   (str "products", productServiceURL)] }

/-- Model of the Go standard-library url.Parse (an external collaborator,
not code of this repository): parsing fails exactly on ASCII control
characters ("net/url: invalid control character in URL"); every URL
string the gateway can receive from its environment configuration,
including the empty string, parses successfully. -/
def urlParseOk (s : Str) : Bool := s.all fun c => decide (32 ≤ c.toNat ∧ c.toNat ≠ 127)

/-- The upstream oracle: given the target base URL and the forwarded
request, `none` models a transport failure (connection refused, timeout),
`some resp` the HTTP response the backend produced. The standard-library
reverse proxy relays a received response verbatim and invokes its
ErrorHandler only on transport failure. -/
abbrev Backend := Str → Request → Option Response

/-- routeRequest (todo.md lines 471-530). Returns the response written
to the caller together with the single upstream proxy attempt, if one
was made, recorded as (target base URL, forwarded request). The source
makes at most one call to proxy.ServeHTTP per inbound request and the
reverse proxy performs no retry, so the outcome type allows zero or one
upstream attempts. -/
def routeRequest (g : Gateway) (backend : Backend) (r : Request) :
    Response × Option (Str × Request) :=
  if ¬ hasPref r.path (str "/api/") then
    (httpError 404 (str "Invalid path"), none)
  else
    let pathParts := splitSep '/' r.path
    if pathParts.length < 3 then
      (httpError 404 (str "Invalid path"), none)
    else
      let service := pathParts.getD 2 []
      match g.serviceMap.lookup service with
      | none => (httpError 404 (str "Service not found"), none)
      | some targetURL =>
        if ¬ urlParseOk targetURL then
          (httpError 404 (str "Invalid URL"), none)
        else
          let newPath := '/' :: trimPrefix r.path (str "/api/")
          let fwd := { r with path := newPath }
          match backend targetURL fwd with
          | none => (httpError 503 (str "Service unavailable"), some (targetURL, fwd))
          | some resp => (resp, some (targetURL, fwd))

structure ServiceHealth where
  name : Str
  status : Str
  url : Str
deriving DecidableEq

structure HealthResponse where
  gateway : Str
  services : List ServiceHealth
deriving DecidableEq

/-- A health probe: client.Get(url) with a 2-second timeout. `none`
models an error or timeout, `some code` a response with that HTTP
status code arriving within the timeout. -/
abbrev Probe := Str → Option Nat

/-- One iteration of the healthCheck loop body (todo.md lines 421-452):
probes one backend and appends its report, conjoining overall health. -/
def healthStep (probe : Probe) (acc : List ServiceHealth × Bool)
    (entry : Str × Str) : List ServiceHealth × Bool :=
  let healthURL := entry.2 ++ str "/health"
  let ok := match probe healthURL with
    | none => false
    | some code => code == 200
  let status := if ok then str "healthy" else str "unhealthy"
  (acc.1 ++ [⟨entry.1, status, entry.2⟩], acc.2 && ok)

/-- healthCheck (todo.md lines 403-469). Returns the JSON body written
and the HTTP status code of the gateway response: the source calls
WriteHeader(503) exactly when some backend is unhealthy, and otherwise
lets the first write default the status to 200. -/
def healthCheck (g : Gateway) (probe : Probe) : HealthResponse × Nat :=
  let res := g.serviceMap.foldl (healthStep probe) ([], true)
  let allHealthy := res.2
  let gatewayStatus := if allHealthy then str "healthy" else str "degraded"
  let code := if allHealthy then 200 else 503
  ({ gateway := gatewayStatus, services := res.1 }, code)

/-- A wrapped handler: the response to the caller plus the upstream
proxy attempt, if any. -/
abbrev Handler := Request → Response × Option (Str × Request)

def corsHeaderList : List (Str × Str) :=
  [(str "Access-Control-Allow-Origin", str "*"),
   (str "Access-Control-Allow-Methods", str "GET, POST, PUT, DELETE, OPTIONS"),
   (str "Access-Control-Allow-Headers", str "Content-Type, Authorization")]

/-- corsMiddleware (todo.md lines 385-401): sets the three CORS headers
on every response before anything else runs; on an OPTIONS request it
writes 200 and returns without calling the wrapped handler. -/
def corsMiddleware (next : Handler) : Handler := fun r =>
  if r.method = str "OPTIONS" then
    ({ status := 200, headers := corsHeaderList, body := [] }, none)
  else
    let res := next r
    ({ res.1 with headers := corsHeaderList ++ res.1.headers }, res.2)

/-- One inbound request to the gateway as mounted in main
(todo.md lines 375-376): either a routed API request or a health check. -/
inductive GatewayRequest where
  | route (r : Request)
  | health (r : Request)
deriving DecidableEq

/-- The gateway state after serving one request. Both handlers only read
g.serviceMap and never assign to it (todo.md lines 403-530 contain no
write to the map), so serving returns the state unchanged after running
the handler. -/
def serveOne (backend : Backend) (probe : Probe) (g : Gateway)
    (q : GatewayRequest) : Gateway :=
  match q with
  | .route r =>
    let _ := corsMiddleware (routeRequest g backend) r
    g
  | .health _ =>
    let _ := healthCheck g probe
    g

/-- The gateway state after serving a sequence of requests. -/
def serveAll (backend : Backend) (probe : Probe) (g : Gateway)
    (qs : List GatewayRequest) : Gateway :=
  qs.foldl (serveOne backend probe) g

/-! ### Lemmas about the Go string primitives -/

theorem splitSep_ne_nil (c : Char) (s : Str) : splitSep c s ≠ [] := by
  cases s with
  | nil => simp [splitSep]
  | cons x xs =>
    simp only [splitSep]
    split
    · simp
    · split <;> simp

theorem splitSep_cons_sep (c : Char) (s : Str) :
    splitSep c (c :: s) = [] :: splitSep c s := by
  simp only [splitSep]
  cases h : splitSep c s with
  | nil => exact absurd h (splitSep_ne_nil c s)
  | cons y ys => simp

theorem splitSep_cons_of_ne (c x : Char) (s : Str) (hx : x ≠ c) :
    ∃ y ys, splitSep c s = y :: ys ∧ splitSep c (x :: s) = (x :: y) :: ys := by
  cases h : splitSep c s with
  | nil => exact absurd h (splitSep_ne_nil c s)
  | cons y ys => exact ⟨y, ys, rfl, by simp [splitSep, h, hx]⟩

theorem splitSep_append_sep (c : Char) (a b : Str) (ha : c ∉ a) :
    splitSep c (a ++ c :: b) = a :: splitSep c b := by
  induction a with
  | nil => simpa using splitSep_cons_sep c b
  | cons x xs ih =>
    have hx : x ≠ c := fun h => ha (h ▸ List.mem_cons_self x xs)
    have ha' : c ∉ xs := fun h => ha (List.mem_cons_of_mem _ h)
    have hih := ih ha'
    obtain ⟨y, ys, h1, h2⟩ := splitSep_cons_of_ne c x (xs ++ c :: b) hx
    rw [hih] at h1
    cases h1
    rw [List.cons_append, h2]

theorem hasPref_append (pre rest : Str) : hasPref (pre ++ rest) pre = true := by
  simp [hasPref, List.isPrefixOf_iff_prefix]

theorem trimPrefix_append (pre rest : Str) : trimPrefix (pre ++ rest) pre = rest := by
  simp [trimPrefix, List.isPrefixOf_iff_prefix, List.drop_left]

theorem splitSep_api (rest : Str) :
    splitSep '/' (str "/api/" ++ rest) = [] :: str "api" :: splitSep '/' rest := by
  have h : str "/api/" ++ rest = '/' :: (str "api" ++ '/' :: rest) := rfl
  rw [h, splitSep_cons_sep, splitSep_append_sep]
  decide

/-- A path of the form "/api/" ++ rest always splits into at least
three "/"-separated parts, so the length guard in routeRequest passes. -/
theorem apiPath_len (rest : Str) :
    ¬ (splitSep '/' (str "/api/" ++ rest)).length < 3 := by
  rw [splitSep_api]
  have : 0 < (splitSep '/' rest).length :=
    List.length_pos.mpr (splitSep_ne_nil '/' rest)
  simp only [List.length_cons]
  omega

/-- The service token routeRequest extracts from a path "/api/" ++ rest
is the first "/"-separated segment of rest. -/
theorem service_token_eq (rest : Str) :
    (splitSep '/' (str "/api/" ++ rest)).getD 2 [] = (splitSep '/' rest).headD [] := by
  rw [splitSep_api]
  cases h : splitSep '/' rest <;> simp [List.getD]

/-- Central routing lemma: once the prefix is present, the token
resolves and the stored URL parses, routeRequest forwards the request
with only "/api/" stripped (re-prefixed with "/") to the resolved
backend and relays its response, or synthesizes a 503 on transport
failure. -/
theorem routeRequest_reaches_proxy (g : Gateway) (backend : Backend) (r : Request)
    (rest url : Str) (hpath : r.path = str "/api/" ++ rest)
    (hlook : g.serviceMap.lookup ((splitSep '/' rest).headD []) = some url)
    (hurl : urlParseOk url = true) :
    routeRequest g backend r =
      match backend url { r with path := '/' :: rest } with
      | none => (httpError 503 (str "Service unavailable"),
                 some (url, { r with path := '/' :: rest }))
      | some resp => (resp, some (url, { r with path := '/' :: rest })) := by
  have hlen := apiPath_len rest
  simp only [routeRequest, hpath, hasPref_append, not_true, if_false, reduceIte,
    service_token_eq, hlen, hlook, hurl, not_false_iff, trimPrefix_append]

/-! ### Concrete fixtures (the registry of the spec scenario and simple
upstream oracles) -/

/-- The registry of the concrete spec scenario:
users -> http://u:8081, products -> http://p:8082. -/
def g0 : Gateway := mkGateway (str "http://u:8081") (str "http://p:8082")

/-- An upstream oracle answering 200 to every request. -/
def b200 : Backend := fun _ _ => some { status := 200, headers := [], body := str "ok" }

/-- An upstream oracle answering 500 with a header and body to every request. -/
def resp500 : Response :=
  { status := 500, headers := [(str "X-Err", str "yes")], body := str "oops" }

def b500 : Backend := fun _ _ => some resp500

/-- An upstream oracle that always fails at the transport level
(connection refused / timeout). -/
def bFail : Backend := fun _ _ => none

def req42 : Request :=
  { method := str "GET", path := str "/api/users/42", headers := [], body := [] }

def reqUsers : Request :=
  { method := str "GET", path := str "/api/users", headers := [], body := [] }

/-! ### C1 -/

/-- C1, counterexample: the claim says a request to "/api/users/42" is
forwarded to the users backend with path "/42" (both "/api/" and the
service token stripped). On the code the forwarded path is "/users/42":
only "/api/" is stripped and the token is retained, so the claim is
false at this input. -/
theorem C1_counterexample_token_not_stripped :
    ((routeRequest g0 b200 req42).2.map fun t => t.2.path) = some (str "/users/42") ∧
    ((routeRequest g0 b200 req42).2.map fun t => t.2.path) ≠ some (str "/42") := by
  decide

/-- C1 (amended): for every service token S registered in the Backend
Registry (with a URL that parses) and every sub-path P, routing a
request with path "/api/S/P" forwards it to the backend registered for
S with forwarded path "/S/P": the fixed prefix "/api/" is stripped and
a single leading "/" restored, but the service token S is retained
(e.g. "/api/users/42" is forwarded to the users backend as
"/users/42"). -/
theorem route_strips_api_keeps_token (g : Gateway) (backend : Backend)
    (S P url : Str) (hS : '/' ∉ S)
    (hlook : g.serviceMap.lookup S = some url) (hurl : urlParseOk url = true)
    (r : Request) (hpath : r.path = str "/api/" ++ (S ++ '/' :: P)) :
    (routeRequest g backend r).2 = some (url, { r with path := '/' :: (S ++ '/' :: P) }) := by
  have hhead : (splitSep '/' (S ++ '/' :: P)).headD [] = S := by
    rw [splitSep_append_sep '/' S P hS]
    rfl
  have h := routeRequest_reaches_proxy g backend r (S ++ '/' :: P) url hpath
    (by rw [hhead]; exact hlook) hurl
  rw [h]
  cases backend url { r with path := '/' :: (S ++ '/' :: P) } <;> rfl

theorem route_strips_api_keeps_token_witness :
    (routeRequest g0 b200 req42).2 =
      some (str "http://u:8081", { req42 with path := str "/users/42" }) :=
  route_strips_api_keeps_token g0 b200 (str "users") (str "42") (str "http://u:8081")
    (by decide) (by decide) (by decide) req42 (by decide)

/-! ### C3 -/

/-- C3: for every request whose path starts with "/api/" and whose
extracted service token (the first "/"-separated segment after the
prefix) is not a key of the Backend Registry, the gateway responds 404
with the "Service not found" message, and no upstream call is made. -/
theorem unknown_service_404 (g : Gateway) (backend : Backend) (r : Request)
    (rest : Str) (hpath : r.path = str "/api/" ++ rest)
    (hlook : g.serviceMap.lookup ((splitSep '/' rest).headD []) = none) :
    routeRequest g backend r = (httpError 404 (str "Service not found"), none) := by
  have hlen := apiPath_len rest
  simp only [routeRequest, hpath, hasPref_append, not_true, reduceIte,
    service_token_eq, hlen, hlook]

/-- C3 witness: the spec scenario "/api/orders/1" with no "orders"
entry yields 404 "Service not found" and no upstream attempt. -/
theorem unknown_service_404_witness :
    routeRequest g0 b200
      { method := str "GET", path := str "/api/orders/1", headers := [], body := [] } =
      (httpError 404 (str "Service not found"), none) :=
  unknown_service_404 g0 b200
    { method := str "GET", path := str "/api/orders/1", headers := [], body := [] }
    (str "orders/1") (by decide) (by decide)

/-! ### C4 -/

/-- C4: for every request whose path does not start with "/api/", the
routing operation responds 404 "Invalid path" whatever the HTTP method,
and no upstream call is made. -/
theorem invalid_path_404 (g : Gateway) (backend : Backend) (r : Request)
    (hpre : hasPref r.path (str "/api/") = false) :
    routeRequest g backend r = (httpError 404 (str "Invalid path"), none) := by
  simp [routeRequest, hpre]

/-- C4 witness: a DELETE to a path outside "/api/" gets 404
"Invalid path" with no upstream attempt. -/
theorem invalid_path_404_witness :
    routeRequest g0 b200
      { method := str "DELETE", path := str "/foo/users/1", headers := [], body := [] } =
      (httpError 404 (str "Invalid path"), none) :=
  invalid_path_404 g0 b200
    { method := str "DELETE", path := str "/foo/users/1", headers := [], body := [] }
    (by decide)

/-! ### C2 -/

/-- The loop body marks a backend healthy exactly when its probe came
back 200 within the timeout. -/
theorem healthStep_snd (probe : Probe) (acc : List ServiceHealth × Bool)
    (e : Str × Str) :
    (healthStep probe acc e).2 =
      (acc.2 && (probe (e.2 ++ str "/health") == some 200)) := by
  cases h : probe (e.2 ++ str "/health") <;> simp [healthStep, h]

/-- The allHealthy accumulator of the healthCheck loop is the
conjunction of the per-backend probe results. -/
theorem healthFold_snd (probe : Probe) (l : List (Str × Str))
    (acc : List ServiceHealth) (b : Bool) :
    (l.foldl (healthStep probe) (acc, b)).2 =
      (b && l.all fun e => probe (e.2 ++ str "/health") == some 200) := by
  induction l generalizing acc b with
  | nil => simp
  | cons e es ih =>
    simp only [List.foldl_cons, List.all_cons]
    have hstep : healthStep probe (acc, b) e =
        ((healthStep probe (acc, b) e).1,
         b && (probe (e.2 ++ str "/health") == some 200)) := by
      rw [← healthStep_snd probe (acc, b) e]
    rw [hstep, ih]
    rw [Bool.and_assoc]

/-- C2: the aggregate gateway status is "healthy" iff every registered
backend answers its GET url/health probe with HTTP 200 within the
timeout (a probe returning anything else, erroring or timing out makes
it "degraded"), and the HTTP status of the /health response is 200
exactly when the aggregate is "healthy" and 503 exactly when it is
"degraded". -/
theorem healthCheck_aggregate_iff (g : Gateway) (probe : Probe) :
    ((healthCheck g probe).1.gateway = str "healthy" ↔
      ∀ e ∈ g.serviceMap, probe (e.2 ++ str "/health") = some 200) ∧
    ((healthCheck g probe).1.gateway = str "degraded" ↔
      ¬ ∀ e ∈ g.serviceMap, probe (e.2 ++ str "/health") = some 200) ∧
    ((healthCheck g probe).2 = 200 ↔ (healthCheck g probe).1.gateway = str "healthy") ∧
    ((healthCheck g probe).2 = 503 ↔ (healthCheck g probe).1.gateway = str "degraded") := by
  have hsnd := healthFold_snd probe g.serviceMap [] true
  rw [Bool.true_and] at hsnd
  simp only [healthCheck, hsnd]
  cases hA : (g.serviceMap.all fun e => probe (e.2 ++ str "/health") == some 200) with
  | true =>
    have hall : ∀ e ∈ g.serviceMap, probe (e.2 ++ str "/health") = some 200 := by
      intro e he
      have := List.all_eq_true.mp hA e he
      exact eq_of_beq this
    refine ⟨iff_of_true rfl hall, iff_of_false (by decide) (fun h => h hall),
      iff_of_true rfl rfl, iff_of_false (by decide) (by decide)⟩
  | false =>
    have hnall : ¬ ∀ e ∈ g.serviceMap, probe (e.2 ++ str "/health") = some 200 := by
      intro h
      have : (g.serviceMap.all fun e => probe (e.2 ++ str "/health") == some 200) = true :=
        List.all_eq_true.mpr fun e he => beq_of_eq (h e he)
      rw [hA] at this
      exact Bool.false_ne_true this
    refine ⟨iff_of_false (by decide) hnall, iff_of_true rfl hnall,
      iff_of_false (by decide) (by decide), iff_of_true rfl rfl⟩

/-- C2 witness: with both backends answering 200 the aggregate is
"healthy"; applying the iff at a probe that times out on every URL
gives "degraded" with status 503. -/
theorem healthCheck_aggregate_iff_witness :
    (healthCheck g0 (fun _ => some 200)).1.gateway = str "healthy" ∧
    (healthCheck g0 (fun _ => none)).2 = 503 :=
  ⟨(healthCheck_aggregate_iff g0 (fun _ => some 200)).1.mpr (by decide),
   (healthCheck_aggregate_iff g0 (fun _ => none)).2.2.2.mpr
     ((healthCheck_aggregate_iff g0 (fun _ => none)).2.1.mpr (by decide))⟩

/-! ### C5 -/

/-- C5: every response produced through the CORS wrapper carries the
three Access-Control-* headers, whatever the wrapped handler does; and
an OPTIONS request is answered 200 with no body and no upstream
attempt, the wrapped handler never being consulted (the result is a
constant not depending on it). -/
theorem cors_headers_and_preflight (next : Handler) (r : Request) :
    ((str "Access-Control-Allow-Origin", str "*") ∈ (corsMiddleware next r).1.headers ∧
     (str "Access-Control-Allow-Methods", str "GET, POST, PUT, DELETE, OPTIONS") ∈
       (corsMiddleware next r).1.headers ∧
     (str "Access-Control-Allow-Headers", str "Content-Type, Authorization") ∈
       (corsMiddleware next r).1.headers) ∧
    (r.method = str "OPTIONS" →
      corsMiddleware next r =
        ({ status := 200, headers := corsHeaderList, body := [] }, none)) := by
  unfold corsMiddleware
  by_cases h : r.method = str "OPTIONS"
  · simp [h, corsHeaderList]
  · simp [h, corsHeaderList]

/-- C5 witness: an OPTIONS request through the wrapper, with a wrapped
handler that would answer 500 and call upstream, still yields the bare
200 preflight response with no upstream attempt. -/
theorem cors_headers_and_preflight_witness :
    corsMiddleware (fun s => (httpError 500 (str "boom"), some (str "http://u:8081", s)))
      { method := str "OPTIONS", path := str "/api/users/1", headers := [], body := [] } =
      ({ status := 200, headers := corsHeaderList, body := [] }, none) :=
  (cors_headers_and_preflight
    (fun s => (httpError 500 (str "boom"), some (str "http://u:8081", s)))
    { method := str "OPTIONS", path := str "/api/users/1", headers := [], body := [] }).2
    (by decide)

/-! ### C6 -/

/-- C6: on a successfully routed request (prefix present, token
resolved, stored URL parses) whose upstream call yields a response, the
forwarded request keeps the original method, headers and body (only the
path is rewritten), and the upstream response — status, headers and
body, whatever the status, 200 or not — is relayed to the caller
unchanged. -/
theorem proxy_relays_verbatim (g : Gateway) (backend : Backend) (r : Request)
    (rest url : Str) (resp : Response)
    (hpath : r.path = str "/api/" ++ rest)
    (hlook : g.serviceMap.lookup ((splitSep '/' rest).headD []) = some url)
    (hurl : urlParseOk url = true)
    (hresp : backend url { r with path := '/' :: rest } = some resp) :
    routeRequest g backend r = (resp, some (url, { r with path := '/' :: rest })) := by
  rw [routeRequest_reaches_proxy g backend r rest url hpath hlook hurl, hresp]

/-- C6 witness: a backend answering 404 has that 404 relayed verbatim,
headers and body included, with method, headers and body of the
original request forwarded. -/
theorem proxy_relays_verbatim_witness :
    routeRequest g0 (fun _ _ => some (httpError 404 (str "no such user"))) req42 =
      (httpError 404 (str "no such user"),
       some (str "http://u:8081", { req42 with path := str "/users/42" })) :=
  proxy_relays_verbatim g0 (fun _ _ => some (httpError 404 (str "no such user"))) req42
    (str "users/42") (str "http://u:8081") (httpError 404 (str "no such user"))
    (by decide) (by decide) (by decide) (by decide)

/-! ### C7 -/

/-- C7, counterexample: the claim includes "a non-200 response on the
proxy call" among the failures that yield a 503 to the caller. On the
code a backend that answers 500 has that 500 relayed verbatim: the
caller sees status 500, not 503, so the claim as stated is false. -/
theorem C7_counterexample_non200_relayed :
    (routeRequest g0 b500 req42).1.status = 500 ∧
    (routeRequest g0 b500 req42).1 ≠ httpError 503 (str "Service unavailable") := by
  decide

/-- C7 (amended): on every proxied request whose upstream call fails at
the transport level (connection refused or timeout — the proxy
ErrorHandler cases), the caller receives 503 "Service unavailable",
the routing function still returns normally (no crash), and exactly one
upstream attempt was made; a non-200 HTTP response from the backend is
not a failure and is relayed unchanged. -/
theorem upstream_failure_503 (g : Gateway) (backend : Backend) (r : Request)
    (rest url : Str)
    (hpath : r.path = str "/api/" ++ rest)
    (hlook : g.serviceMap.lookup ((splitSep '/' rest).headD []) = some url)
    (hurl : urlParseOk url = true)
    (hfail : backend url { r with path := '/' :: rest } = none) :
    routeRequest g backend r =
      (httpError 503 (str "Service unavailable"),
       some (url, { r with path := '/' :: rest })) := by
  rw [routeRequest_reaches_proxy g backend r rest url hpath hlook hurl, hfail]

/-- C7 witness: with an upstream that always fails at transport level,
"/api/users/42" yields 503 "Service unavailable" after exactly one
upstream attempt. -/
theorem upstream_failure_503_witness :
    routeRequest g0 bFail req42 =
      (httpError 503 (str "Service unavailable"),
       some (str "http://u:8081", { req42 with path := str "/users/42" })) :=
  upstream_failure_503 g0 bFail req42 (str "users/42") (str "http://u:8081")
    (by decide) (by decide) (by decide) (by decide)

/-! ### C8 -/

/-- Serving any single request leaves the gateway state unchanged: the
handlers only read the service map. -/
theorem serveOne_eq (backend : Backend) (probe : Probe) (g : Gateway)
    (q : GatewayRequest) : serveOne backend probe g q = g := by
  cases q <;> rfl

/-- Serving any sequence of requests leaves the gateway state unchanged. -/
theorem serveAll_eq (backend : Backend) (probe : Probe) (g : Gateway)
    (qs : List GatewayRequest) : serveAll backend probe g qs = g := by
  induction qs generalizing g with
  | nil => rfl
  | cons q qs ih =>
    show serveAll backend probe (serveOne backend probe g q) qs = g
    rw [serveOne_eq, ih]

/-- C8: the Backend Registry is built exactly once at startup from the
two environment values and never mutated: after any sequence of handled
requests (routing or health checks) the gateway state is the one built
at startup, its key set is exactly \x7busers, products\x7d with no
duplicate, and each logical name resolves to exactly one URL, the one
it was configured with. -/
theorem registry_immutable (u p : Str) (backend : Backend) (probe : Probe)
    (qs : List GatewayRequest) :
    serveAll backend probe (mkGateway u p) qs = mkGateway u p ∧
    (mkGateway u p).serviceMap.map Prod.fst = [str "users", str "products"] ∧
    ((mkGateway u p).serviceMap.map Prod.fst).Nodup ∧
    (mkGateway u p).serviceMap.lookup (str "users") = some u ∧
    (mkGateway u p).serviceMap.lookup (str "products") = some p := by
  have hkeys : (mkGateway u p).serviceMap.map Prod.fst = [str "users", str "products"] := rfl
  exact ⟨serveAll_eq backend probe (mkGateway u p) qs, hkeys, by rw [hkeys]; decide, rfl, rfl⟩

/-! ### C9 -/

/-- A pattern segment of the form \x7bname\x7d is a Go 1.22 ServeMux
wildcard. -/
def isWildcardSeg (pat : Str) : Bool :=
  match pat with
  | c :: _ => c = Char.ofNat 123
  | [] => false

/-- Model of Go 1.22 ServeMux segment matching (standard library, an
external collaborator of this repository): a wildcard segment matches
any non-empty path segment, any other pattern segment matches itself
only. -/
def segMatch (pat seg : Str) : Bool :=
  if isWildcardSeg pat then decide (seg ≠ []) else pat == seg

/-- Model of Go 1.22 ServeMux matching for the method-less, host-less,
non-rooted patterns the two services register: the pattern and the path
split into equally many "/"-separated segments that match pairwise. -/
def muxMatch (pat path : Str) : Bool :=
  let ps := splitSep '/' pat
  let ss := splitSep '/' path
  ps.length == ss.length && (ps.zip ss).all fun e => segMatch e.1 e.2

/-- The route patterns the user service registers on its mux
(unnamed/part_000 lines 203-220). -/
def userServiceMounts : List Str :=
  [str "/health", str "/users", str "/users/{id}"]

/-- The route patterns the product service registers on its mux
(services/product-service/main.go lines 35-63). -/
def productServiceMounts : List Str :=
  [str "/health", str "/products", str "/products/{id}"]

/-- C9: for every routed request whose path "/api/" ++ rest reaches
forwarding, the forwarded path is the original path with only the
leading "/api" segment removed (drop of its 4 characters) — the service
token is retained; concretely "/api/users/42" forwards as "/users/42"
and "/api/users" as "/users", and those forwarded paths (and the
products analogue) match mount patterns the user and product services
actually register. -/
theorem forwarded_path_drops_api_only :
    (∀ (g : Gateway) (backend : Backend) (r : Request) (rest url : Str),
      r.path = str "/api/" ++ rest →
      g.serviceMap.lookup ((splitSep '/' rest).headD []) = some url →
      urlParseOk url = true →
      ((routeRequest g backend r).2.map fun t => t.2.path) = some (r.path.drop 4)) ∧
    ((routeRequest g0 b200 req42).2.map fun t => t.2.path) = some (str "/users/42") ∧
    ((routeRequest g0 b200 reqUsers).2.map fun t => t.2.path) = some (str "/users") ∧
    userServiceMounts.any (fun pat => muxMatch pat (str "/users/42")) = true ∧
    userServiceMounts.any (fun pat => muxMatch pat (str "/users")) = true ∧
    productServiceMounts.any (fun pat => muxMatch pat (str "/products/7")) = true := by
  refine ⟨?_, by decide, by decide, by decide, by decide, by decide⟩
  intro g backend r rest url hpath hlook hurl
  rw [routeRequest_reaches_proxy g backend r rest url hpath hlook hurl, hpath]
  cases backend url { r with path := '/' :: rest } <;> rfl

/-- C9 witness: the general clause applied at the concrete registry and
request "/api/users/42". -/
theorem forwarded_path_drops_api_only_witness :
    ((routeRequest g0 b200 req42).2.map fun t => t.2.path) = some (req42.path.drop 4) :=
  forwarded_path_drops_api_only.1 g0 b200 req42 (str "users/42") (str "http://u:8081")
    (by decide) (by decide) (by decide)

/-! ### C10 -/

/-- C10: when USER_SERVICE_URL is unset (so os.Getenv yields the empty
string), the registry still contains the "users" key with an
empty-string URL (and symmetrically for "products"): a request under
"/api/users/" never misses the registry lookup, the empty string passes
URL parsing, and the request reaches the proxy step (an upstream
attempt with empty base URL is made) instead of the gateway failing
fast at startup. -/
theorem unset_env_empty_url_still_routes (u p : Str) (backend : Backend)
    (r : Request) (rest : Str)
    (hpath : r.path = str "/api/users/" ++ rest) :
    (str "users", ([] : Str)) ∈ (mkGateway [] p).serviceMap ∧
    (mkGateway [] p).serviceMap.lookup (str "users") = some [] ∧
    (mkGateway u []).serviceMap.lookup (str "products") = some [] ∧
    urlParseOk [] = true ∧
    (routeRequest (mkGateway [] p) backend r).2 =
      some (([] : Str), { r with path := '/' :: (str "users/" ++ rest) }) := by
  refine ⟨by simp [mkGateway], rfl, rfl, rfl, ?_⟩
  have hpath' : r.path = str "/api/" ++ (str "users/" ++ rest) := hpath
  have hhead : (splitSep '/' (str "users/" ++ rest)).headD [] = str "users" := by
    have h : str "users/" ++ rest = str "users" ++ '/' :: rest := rfl
    rw [h, splitSep_append_sep '/' (str "users") rest (by decide)]
    rfl
  have h := routeRequest_reaches_proxy (mkGateway [] p) backend r
    (str "users/" ++ rest) [] hpath' (by rw [hhead]; rfl) rfl
  rw [h]
  cases backend [] { r with path := '/' :: (str "users/" ++ rest) } <;> rfl

/-- C10 witness: with USER_SERVICE_URL unset, "/api/users/42" still
resolves and an upstream attempt with empty base URL is made. -/
theorem unset_env_empty_url_still_routes_witness :
    (routeRequest (mkGateway [] (str "http://p:8082")) bFail req42).2 =
      some (([] : Str), { req42 with path := str "/users/42" }) :=
  (unset_env_empty_url_still_routes [] (str "http://p:8082") bFail req42
    (str "42") (by decide)).2.2.2.2

end Infra
